import Mathlib

/-!
Verification development for the vespacli repository: a downloader/installer
for the prebuilt Vespa CLI binary. The repository contains several
near-duplicate revisions of the installer; the embeddings below follow each
revision separately:

- namespace VespaClient : src/vespa_client/cli/installer.py
- namespace Vespa       : src/vespa/cli/installer.py
- namespace Downloader  : src/utils/download_binaries.py
- namespace Vespacli    : src/vespacli/__init__.py
- namespace CheckLatest : src/utils/check_latest_version.py

Python string operations used by the code (substring membership, str.split,
str.lower, str.endswith, "/".split indexing) are modelled by executable
functions over lists of characters so that every definition evaluates by
kernel reduction. ASCII lowercasing suffices for the OS and machine strings
the code manipulates.
-/

/-! ## Python string primitives -/

/-- Model of Python list-prefix comparison: does the first list lead the second? -/
def leadMatch : List Char → List Char → Bool
  | [], _ => true
  | _ :: _, [] => false
  | a :: as, b :: bs => a == b && leadMatch as bs

/-- Model of substring search: does the needle occur somewhere in the haystack? -/
def subSearch (n : List Char) : List Char → Bool
  | [] => leadMatch n []
  | c :: cs => leadMatch n (c :: cs) || subSearch n cs

/-- Model of the Python expression needle in hay (substring membership). -/
def pyIn (needle hay : String) : Bool := subSearch needle.data hay.data

/-- Whitespace recognised by Python str.split with no argument. -/
def charWS (c : Char) : Bool := c == ' ' || c == '\t' || c == '\n' || c == '\r'

/-- Worker for whitespace splitting, accumulating the current word reversed. -/
def splitWSGo (acc : List Char) : List Char → List (List Char)
  | [] => if acc.isEmpty then [] else [acc.reverse]
  | c :: cs =>
    if charWS c then
      (if acc.isEmpty then splitWSGo [] cs else acc.reverse :: splitWSGo [] cs)
    else splitWSGo (c :: acc) cs

/-- Model of Python str.split with no argument: split on whitespace runs, dropping empties. -/
def pySplit (s : String) : List String := (splitWSGo [] s.data).map String.mk

/-- ASCII lowercasing of a single character. -/
def lowerChar (c : Char) : Char :=
  if 65 ≤ c.toNat ∧ c.toNat ≤ 90 then Char.ofNat (c.toNat + 32) else c

/-- Model of Python str.lower restricted to ASCII, which covers every OS and machine string involved. -/
def pyLower (s : String) : String := String.mk (s.data.map lowerChar)

/-- Model of Python str.endswith. -/
def tailMatch (sfx s : String) : Bool := leadMatch sfx.data.reverse s.data.reverse

/-- Worker for splitting on a single separator character, keeping empty fields as Python does. -/
def splitCGo (sep : Char) (acc : List Char) : List Char → List (List Char)
  | [] => [acc.reverse]
  | c :: cs =>
    if c == sep then acc.reverse :: splitCGo sep [] cs else splitCGo sep (c :: acc) cs

/-- Model of the Python expression url.split over the slash character, indexed at -1. -/
def url_file_name (url : String) : String :=
  String.mk ((splitCGo '/' [] url.data).getLastD [])

/-! ## Logging model -/

inductive LogLevel where
  | info
  | warning
  | error
deriving DecidableEq

structure LogEntry where
  level : LogLevel
  msg : String
deriving DecidableEq

def mkInfo (m : String) : LogEntry := ⟨LogLevel.info, m⟩

def mkWarn (m : String) : LogEntry := ⟨LogLevel.warning, m⟩

def mkErr (m : String) : LogEntry := ⟨LogLevel.error, m⟩

/-- Does a log contain any entry above info level, i.e. a recorded failure? -/
def hasFailureLog (logs : List LogEntry) : Bool :=
  logs.any (fun e => e.level = LogLevel.error ∨ e.level = LogLevel.warning)

/-- Extract the log list of a computation that did not propagate an exception. -/
def logsOrEmpty (r : Except String (List LogEntry)) : List LogEntry :=
  match r with
  | Except.ok l => l
  | Except.error _ => []

/-! ## Shared constants

Both installer revisions define the same SUPPORTED_OS list and ARCH_MAP
dictionary (src/vespa_client/cli/installer.py lines 14-15 and
src/vespa/cli/installer.py lines 13-14). -/

def SUPPORTED_OS : List String := ["windows", "darwin", "linux"]

/-- Embeds the ARCH_MAP dictionary lookup ARCH_MAP.get(machine, default): the
dictionary is x86_64 to amd64, amd64 to amd64, arm64 to arm64, aarch64 to arm64. -/
def ARCH_MAP (machine : String) : Option String :=
  if machine = "x86_64" then some "amd64"
  else if machine = "amd64" then some "amd64"
  else if machine = "arm64" then some "arm64"
  else if machine = "aarch64" then some "arm64"
  else none

/-! ## Platform resolution -/

namespace VespaClient

/-- Embeds VespaCLIInstaller.get_os_and_architecture of
src/vespa_client/cli/installer.py lines 30-38: lowercase the raw OS and
machine strings, look the machine up in ARCH_MAP with no default, and raise
ValueError when the OS is unsupported or the machine is absent from the map.
The raw strings returned by platform.system and platform.machine are the
inputs. -/
def get_os_and_architecture (rawOs rawMachine : String) : Except String (String × String) :=
  let os_name := pyLower rawOs
  let machine := pyLower rawMachine
  let arch := ARCH_MAP machine
  if os_name ∉ SUPPORTED_OS ∨ arch = none then
    Except.error ("Unsupported OS or architecture: OS=" ++ os_name ++ ", Arch=" ++ machine)
  else
    Except.ok (os_name, arch.getD "")

end VespaClient

namespace Vespa

/-- Embeds VespaCLIInstaller.get_os_and_architecture of
src/vespa/cli/installer.py lines 24-33: lowercase the raw OS and machine
strings, look the machine up in ARCH_MAP defaulting to 386 for unknown
machines, and raise ValueError only when the OS is unsupported. -/
def get_os_and_architecture (rawOs rawMachine : String) : Except String (String × String) :=
  let os_name := pyLower rawOs
  let machine := pyLower rawMachine
  let arch := (ARCH_MAP machine).getD "386"
  if os_name ∉ SUPPORTED_OS then
    Except.error ("Unsupported OS: " ++ os_name)
  else
    Except.ok (os_name, arch)

end Vespa

/-! ## Download URL construction -/

/-- Embeds the file_extension choice made at the top of download_and_extract_cli
in src/vespa_client/cli/installer.py line 42, src/vespa/cli/installer.py line
37 and src/utils/download_binaries.py line 59: zip for windows, tar.gz
otherwise. -/
def file_extension (os_name : String) : String :=
  if os_name = "windows" then "zip" else "tar.gz"

/-- Embeds the download_url f-string of download_and_extract_cli, identical in
src/vespa_client/cli/installer.py line 43, src/vespa/cli/installer.py line 38
and src/utils/download_binaries.py line 60. -/
def download_url (version os_name arch : String) : String :=
  "https://github.com/vespa-engine/vespa/releases/download/v" ++ version ++
    "/vespa-cli_" ++ version ++ "_" ++ os_name ++ "_" ++ arch ++ "." ++
    file_extension os_name

/-- Modelled from the spec: the URL pattern of section 4.2, release host then
version then tool, version, os, arch and extension. Used to compare the URL
the code builds against the shape the spec documents. -/
def specDownloadUrl (version os_name arch ext : String) : String :=
  "https://github.com/vespa-engine/vespa/releases/download/v" ++ version ++
    "/vespa-cli_" ++ version ++ "_" ++ os_name ++ "_" ++ arch ++ "." ++ ext

/-! ## Claim C1 -/

/-- C1 counterexample: the claim says platform resolution raises an
unsupported-platform error whenever the machine string is outside the fixed
table, but the src/vespa/cli/installer.py revision cited by the claim
resolves the unknown machine riscv64 on the supported OS linux to the
silent default architecture 386 instead of raising. -/
theorem c1_counterexample :
    Vespa.get_os_and_architecture "linux" "riscv64" = Except.ok ("linux", "386") ∧
    ARCH_MAP (pyLower "riscv64") = none ∧
    pyLower "linux" ∈ SUPPORTED_OS := by
  exact ⟨rfl, by decide, by decide⟩

/-- C1 amended: in the src/vespa_client/cli/installer.py revision,
get_os_and_architecture returns the canonical pair exactly when the
lowercased OS is in SUPPORTED_OS and the lowercased machine string is in the
fixed table, and raises ValueError for every other input; aarch64 maps to
arm64 and x86_64 to amd64. In the src/vespa/cli/installer.py revision the
error is raised only for an unsupported OS, and an unknown machine string
silently defaults to architecture 386. -/
theorem c1_amended :
    (∀ rawOs rawMachine a, pyLower rawOs ∈ SUPPORTED_OS →
      ARCH_MAP (pyLower rawMachine) = some a →
      VespaClient.get_os_and_architecture rawOs rawMachine = Except.ok (pyLower rawOs, a)) ∧
    (∀ rawOs rawMachine, pyLower rawOs ∉ SUPPORTED_OS ∨ ARCH_MAP (pyLower rawMachine) = none →
      ∃ msg, VespaClient.get_os_and_architecture rawOs rawMachine = Except.error msg) ∧
    (VespaClient.get_os_and_architecture "linux" "aarch64" = Except.ok ("linux", "arm64")) ∧
    (VespaClient.get_os_and_architecture "linux" "x86_64" = Except.ok ("linux", "amd64")) ∧
    (∀ rawOs rawMachine, pyLower rawOs ∈ SUPPORTED_OS →
      Vespa.get_os_and_architecture rawOs rawMachine
        = Except.ok (pyLower rawOs, (ARCH_MAP (pyLower rawMachine)).getD "386")) ∧
    (∀ rawOs rawMachine, pyLower rawOs ∉ SUPPORTED_OS →
      ∃ msg, Vespa.get_os_and_architecture rawOs rawMachine = Except.error msg) := by
  refine ⟨?_, ?_, rfl, rfl, ?_, ?_⟩
  · intro rawOs rawMachine a hos harch
    simp only [VespaClient.get_os_and_architecture, harch]
    rw [if_neg]
    · simp
    · simp [hos]
  · intro rawOs rawMachine h
    simp only [VespaClient.get_os_and_architecture]
    rw [if_pos h]
    exact ⟨_, rfl⟩
  · intro rawOs rawMachine hos
    simp only [Vespa.get_os_and_architecture]
    rw [if_neg (by simp [hos])]
  · intro rawOs rawMachine hos
    simp only [Vespa.get_os_and_architecture]
    rw [if_pos hos]
    exact ⟨_, rfl⟩

/-- C1 witness: the amended theorem applied at concrete inputs, including the
mixed-case raw strings Linux and AArch64 that the code lowercases. -/
theorem c1_witness :
    VespaClient.get_os_and_architecture "Linux" "AArch64" = Except.ok (pyLower "Linux", "arm64") ∧
    (∃ msg, VespaClient.get_os_and_architecture "linux" "riscv64" = Except.error msg) ∧
    Vespa.get_os_and_architecture "Darwin" "x86_64"
      = Except.ok (pyLower "Darwin", (ARCH_MAP (pyLower "x86_64")).getD "386") ∧
    (∃ msg, Vespa.get_os_and_architecture "sunos" "x86_64" = Except.error msg) := by
  refine ⟨c1_amended.1 "Linux" "AArch64" "arm64" (by decide) (by decide),
    c1_amended.2.1 "linux" "riscv64" (Or.inr (by decide)),
    c1_amended.2.2.2.2.1 "Darwin" "x86_64" (by decide),
    c1_amended.2.2.2.2.2 "sunos" "x86_64" (by decide)⟩

/-! ## Claim C2 -/

/-- C2: the download URL built by download_and_extract_cli is exactly the
documented pattern, the extension is zip precisely for windows and tar.gz
otherwise, and the concrete darwin arm64 example produces exactly the
documented URL. -/
theorem c2_url_shape :
    (∀ version os_name arch, download_url version os_name arch
      = specDownloadUrl version os_name arch (if os_name = "windows" then "zip" else "tar.gz")) ∧
    (∀ os_name, file_extension os_name = "zip" ↔ os_name = "windows") ∧
    (∀ os_name, os_name ≠ "windows" → file_extension os_name = "tar.gz") ∧
    (download_url "8.299.14" "darwin" "arm64"
      = "https://github.com/vespa-engine/vespa/releases/download/v8.299.14/vespa-cli_8.299.14_darwin_arm64.tar.gz") := by
  refine ⟨?_, ?_, ?_, by decide⟩
  · intro version os_name arch
    simp [download_url, specDownloadUrl, file_extension]
  · intro os_name
    constructor
    · intro h
      by_contra hw
      simp [file_extension, hw] at h
    · intro h
      simp [file_extension, h]
  · intro os_name h
    simp [file_extension, h]

/-- C2 witness: the url-shape theorem applied at a concrete windows input,
discharging the hypothesis of the tar.gz conjunct at linux. -/
theorem c2_witness :
    download_url "8.0.0" "windows" "amd64"
      = specDownloadUrl "8.0.0" "windows" "amd64" (if ("windows" : String) = "windows" then "zip" else "tar.gz") ∧
    file_extension "linux" = "tar.gz" := by
  exact ⟨c2_url_shape.1 "8.0.0" "windows" "amd64", c2_url_shape.2.2.1 "linux" (by decide)⟩

/-! ## Archive extraction and the filesystem model

The filesystem is modelled as the list of paths that currently exist.
Removing a file (os.remove on an existing path) filters it out. Whether the
tarfile or zipfile extraction call raises is an input flag, since the archive
bytes are outside the model. -/

/-- Model of os.remove applied to a path that may be in the filesystem. -/
def pyRemove (fs : List String) (path : String) : List String :=
  fs.filter (fun p => p ≠ path)

namespace VespaClient

/-- Embeds VespaCLIInstaller.extract_file of src/vespa_client/cli/installer.py
lines 66-84: dispatch on the file_extension argument, extract into a fresh
temporary directory, log and re-raise any extraction exception, and remove
the downloaded archive in a finally block so the removal happens on both the
success and the failure path. The result pairs the outcome (extract path or
propagated error) with the filesystem after the call. -/
def extract_file (fs : List String) (file_path file_ext extract_path : String)
    (extractOk : Bool) : Except String String × List String :=
  let fsAfter := pyRemove fs file_path
  if file_ext = "tar.gz" ∨ file_ext = "zip" then
    if extractOk then (Except.ok extract_path, fsAfter)
    else (Except.error ("Failed to extract file " ++ file_path), fsAfter)
  else (Except.ok extract_path, fsAfter)

end VespaClient

namespace Downloader

/-- Embeds VespaBinaryDownloader.extract_file of src/utils/download_binaries.py
lines 43-51: dispatch on the endswith test of the file path, extract, then
call os.remove as a plain statement after the extraction calls. There is no
try or finally block, so when extraction raises the exception propagates and
the os.remove line is never reached, leaving the archive in place. -/
def extract_file (fs : List String) (file_path : String) (extractOk : Bool) :
    Except String Unit × List String :=
  if tailMatch ".tar.gz" file_path || tailMatch ".zip" file_path then
    if extractOk then (Except.ok (), pyRemove fs file_path)
    else (Except.error ("Failed to extract " ++ file_path), fs)
  else (Except.ok (), pyRemove fs file_path)

end Downloader

/-! ## Claim C3 -/

/-- C3 counterexample: the claim says extract_file deletes the downloaded
archive before returning or raising in both the success and the failure
case, but in the src/utils/download_binaries.py revision cited by the claim
a failing extraction of w.tar.gz propagates the error with the archive still
present in the filesystem. -/
theorem c3_counterexample :
    Downloader.extract_file ["w.tar.gz"] "w.tar.gz" false
      = (Except.error ("Failed to extract " ++ "w.tar.gz"), ["w.tar.gz"]) := by
  rfl

/-- C3 amended: the src/vespa_client/cli/installer.py extract_file removes the
archive on every path, success or failure, and re-raises the extraction
error rather than swallowing it; the src/utils/download_binaries.py
extract_file removes the archive only when extraction succeeds or is
skipped, and when extraction raises it propagates the error with the archive
left in place. -/
theorem c3_amended :
    (∀ fs file_path file_ext extract_path extractOk,
      file_path ∉ (VespaClient.extract_file fs file_path file_ext extract_path extractOk).2) ∧
    (∀ fs file_path extract_path,
      VespaClient.extract_file fs file_path "tar.gz" extract_path false
        = (Except.error ("Failed to extract file " ++ file_path), pyRemove fs file_path)) ∧
    (∀ fs file_path extract_path,
      VespaClient.extract_file fs file_path "zip" extract_path false
        = (Except.error ("Failed to extract file " ++ file_path), pyRemove fs file_path)) ∧
    (∀ fs file_path, file_path ∉ (Downloader.extract_file fs file_path true).2) ∧
    (∀ fs file_path, tailMatch ".tar.gz" file_path = true →
      Downloader.extract_file fs file_path false
        = (Except.error ("Failed to extract " ++ file_path), fs)) := by
  refine ⟨?_, ?_, ?_, ?_, ?_⟩
  · intro fs file_path file_ext extract_path extractOk
    simp only [VespaClient.extract_file, pyRemove]
    split
    · split <;> simp [List.mem_filter]
    · simp [List.mem_filter]
  · intro fs file_path extract_path
    rfl
  · intro fs file_path extract_path
    rfl
  · intro fs file_path
    simp only [Downloader.extract_file, pyRemove]
    split <;> simp [List.mem_filter]
  · intro fs file_path h
    simp [Downloader.extract_file, h]

/-- C3 witness: the amended theorem applied to a one-file filesystem holding
the archive v.tar.gz, covering the guaranteed-cleanup conjunct and the
failing-extraction conjunct of the batch downloader. -/
theorem c3_witness :
    "v.tar.gz" ∉ (VespaClient.extract_file ["v.tar.gz"] "v.tar.gz" "tar.gz" "/tmp/x" true).2 ∧
    Downloader.extract_file ["v.tar.gz"] "v.tar.gz" false
      = (Except.error ("Failed to extract " ++ "v.tar.gz"), ["v.tar.gz"]) := by
  exact ⟨c3_amended.1 ["v.tar.gz"] "v.tar.gz" "tar.gz" "/tmp/x" true,
    c3_amended.2.2.2.2 ["v.tar.gz"] "v.tar.gz" (by decide)⟩

/-! ## Checksum verification -/

/-- Embeds VespaBinaryDownloader.verify_checksum of
src/utils/download_binaries.py lines 80-92: walk every manifest line; when
the filename occurs in the line as a substring, take the first
whitespace-separated token of the line as the expected digest, compute the
SHA-256 digest of the named file, and raise when they differ; matching lines
continue the loop and a file absent from every line is never hashed. The
map digestOf gives the hex digest of each on-disk file, none when opening
the file raises; an all-whitespace matching line raises IndexError at the
first-token subscript. -/
def verify_checksum (digestOf : String → Option String) (filename : String) :
    List String → Except String Unit
  | [] => Except.ok ()
  | line :: rest =>
    if pyIn filename line then
      match pySplit line with
      | [] => Except.error "IndexError: list index out of range"
      | sha :: _ =>
        match digestOf filename with
        | none => Except.error ("No such file or directory: " ++ filename)
        | some d =>
          if d = sha then verify_checksum digestOf filename rest
          else Except.error ("Checksum verification failed for " ++ filename)
    else verify_checksum digestOf filename rest

/-- Helper for the checksum claims: when the file's digest agrees with the
first token of every manifest line that contains the filename, verification
walks the whole manifest and returns normally. -/
theorem verify_checksum_ok_of_matching (digestOf : String → Option String)
    (filename sha : String) (content : List String)
    (hd : digestOf filename = some sha)
    (hall : ∀ line ∈ content, pyIn filename line = true →
      (pySplit line).headD "" = sha ∧ pySplit line ≠ []) :
    verify_checksum digestOf filename content = Except.ok () := by
  induction content with
  | nil => rfl
  | cons line rest ih =>
    simp only [verify_checksum]
    by_cases hin : pyIn filename line
    · rcases hall line (List.mem_cons_self line rest) hin with ⟨hhead, hne⟩
      rcases hsp : pySplit line with _ | ⟨tok, tl⟩
      · exact absurd hsp hne
      · have htok : tok = sha := by
          simpa [hsp] using hhead
        simp only [hin, if_true, hd, htok, if_pos rfl]
        exact ih (fun l hl hinl => hall l (List.mem_cons_of_mem line hl) hinl)
    · simp only [hin, Bool.false_eq_true, if_false]
      exact ih (fun l hl hinl => hall l (List.mem_cons_of_mem line hl) hinl)

/-- Helper for the checksum claims: the first manifest line containing the
filename whose first token differs from the file's digest makes
verification raise, provided every earlier containing line agrees. -/
theorem verify_checksum_error_of_mismatch (digestOf : String → Option String)
    (filename sha d : String) (content : List String)
    (hd : digestOf filename = some d) (hne : d ≠ sha)
    (hmatch : ∃ line ∈ content, pyIn filename line = true)
    (hall : ∀ line ∈ content, pyIn filename line = true →
      (pySplit line).headD "" = sha ∧ pySplit line ≠ []) :
    verify_checksum digestOf filename content
      = Except.error ("Checksum verification failed for " ++ filename) := by
  induction content with
  | nil => simp at hmatch
  | cons line rest ih =>
    simp only [verify_checksum]
    by_cases hin : pyIn filename line
    · rcases hall line (List.mem_cons_self line rest) hin with ⟨hhead, hnel⟩
      rcases hsp : pySplit line with _ | ⟨tok, tl⟩
      · exact absurd hsp hnel
      · have htok : tok = sha := by
          simpa [hsp] using hhead
        simp [hin, hd, htok, hne]
    · simp only [hin, Bool.false_eq_true, if_false]
      have hmatch0 : ∃ l ∈ rest, pyIn filename l = true := by
        rcases hmatch with ⟨l, hl, hinl⟩
        rcases List.mem_cons.mp hl with h | h
        · exact absurd (h ▸ hinl) (by simpa using hin)
        · exact ⟨l, h, hinl⟩
      exact ih hmatch0 (fun l hl hinl => hall l (List.mem_cons_of_mem line hl) hinl)

/-! ## Claim C4 -/

/-- Digest used by the concrete checksum scenarios: sixty-four hex characters. -/
def shaA : String := "aaaaaaaaaaaaaaaaaaaaaaaaaaaaaaaaaaaaaaaaaaaaaaaaaaaaaaaaaaaaaaaa"

/-- Second digest used by the concrete checksum scenarios, different from shaA. -/
def shaB : String := "bbbbbbbbbbbbbbbbbbbbbbbbbbbbbbbbbbbbbbbbbbbbbbbbbbbbbbbbbbbbbbbb"

/-- C4 counterexample: the claim says verification passes exactly when the
digest matches the digest on the line naming the file, but matching is by
substring, so the file a.tar.gz, whose digest equals the digest on its own
manifest line, still fails verification when another line names
beta-a.tar.gz, which contains a.tar.gz as a substring, with a different
digest. Alone, the same line verifies the same file successfully. -/
theorem c4_counterexample :
    verify_checksum (fun _ => some shaA) "a.tar.gz"
        [shaA ++ "  a.tar.gz", shaB ++ "  beta-a.tar.gz"]
      = Except.error ("Checksum verification failed for " ++ "a.tar.gz") ∧
    verify_checksum (fun _ => some shaA) "a.tar.gz" [shaA ++ "  a.tar.gz"]
      = Except.ok () ∧
    pyIn "a.tar.gz" (shaB ++ "  beta-a.tar.gz") = true := by
  exact ⟨rfl, rfl, by decide⟩

/-- C4 amended: for a file whose computed digest is available, when every
manifest line containing the filename as a substring carries the expected
digest as its first token and at least one such line exists, verify_checksum
returns normally exactly when the computed digest equals that expected
digest; without the uniqueness condition on containing lines the
equivalence fails, because any containing line with a different first token
raises even when the line naming the file matches. -/
theorem c4_amended (digestOf : String → Option String) (filename sha d : String)
    (content : List String) (hd : digestOf filename = some d)
    (hmatch : ∃ line ∈ content, pyIn filename line = true)
    (hall : ∀ line ∈ content, pyIn filename line = true →
      (pySplit line).headD "" = sha ∧ pySplit line ≠ []) :
    verify_checksum digestOf filename content = Except.ok () ↔ d = sha := by
  constructor
  · intro hok
    by_contra hne
    rw [verify_checksum_error_of_mismatch digestOf filename sha d content hd hne hmatch hall]
      at hok
    exact Except.noConfusion hok
  · intro heq
    exact verify_checksum_ok_of_matching digestOf filename sha content (heq ▸ hd) hall

/-- C4 witness: the amended equivalence applied to the concrete one-line
manifest for a.tar.gz whose digest matches. -/
theorem c4_witness :
    verify_checksum (fun _ => some shaA) "a.tar.gz" [shaA ++ "  a.tar.gz"]
      = Except.ok () := by
  exact (c4_amended (fun _ => some shaA) "a.tar.gz" shaA shaA [shaA ++ "  a.tar.gz"]
    rfl ⟨shaA ++ "  a.tar.gz", by decide, by decide⟩
    (by
      intro l hl hin
      have hleq := List.mem_singleton.mp hl
      subst hleq
      exact ⟨by decide, by decide⟩)).mpr rfl

/-! ## Windows alias creation -/

/-- State visible to create_alias_windows: the content at the target
executable path inside the user bin directory (none when the path does not
exist) and whether the user PATH has been updated. -/
structure WinState where
  target : Option String
  pathUpdated : Bool
deriving DecidableEq

namespace VespaClient

/-- Embeds VespaCLIInstaller.create_alias_windows of
src/vespa_client/cli/installer.py lines 100-110: ensure the bin directory
exists, and only when the target path does not exist copy the executable
there and update the user PATH; when the target exists, only log. The Bool
result records whether shutil.copy ran. -/
def create_alias_windows (s : WinState) (srcContent : String) : WinState × Bool :=
  match s.target with
  | some _ => (s, false)
  | none => ({ target := some srcContent, pathUpdated := true }, true)

end VespaClient

namespace Vespa

/-- Embeds VespaCLIInstaller.create_alias_windows of
src/vespa/cli/installer.py lines 90-96: copy the executable only when the
target path does not exist, then call add_to_path unconditionally. The Bool
result records whether shutil.copy ran. -/
def create_alias_windows (s : WinState) (srcContent : String) : WinState × Bool :=
  match s.target with
  | some c => ({ target := some c, pathUpdated := true }, false)
  | none => ({ target := some srcContent, pathUpdated := true }, true)

end Vespa

/-! ## Claim C5 -/

/-- C5: in both cited revisions, when the target executable path already
exists, create_alias_windows performs no copy and leaves the target file
unchanged, so the copy step of installation is idempotent. -/
theorem c5_idempotent_copy :
    (∀ s src c, s.target = some c →
      VespaClient.create_alias_windows s src = (s, false)) ∧
    (∀ s src c, s.target = some c →
      (Vespa.create_alias_windows s src).2 = false ∧
      (Vespa.create_alias_windows s src).1.target = some c) := by
  constructor
  · intro s src c h
    simp [VespaClient.create_alias_windows, h]
  · intro s src c h
    simp [Vespa.create_alias_windows, h]

/-- C5 witness: both conjuncts applied to a state whose target already holds
the executable bytes. -/
theorem c5_witness :
    VespaClient.create_alias_windows ⟨some "vespa-bytes", false⟩ "other-bytes"
      = (⟨some "vespa-bytes", false⟩, false) ∧
    (Vespa.create_alias_windows ⟨some "vespa-bytes", false⟩ "other-bytes").2 = false ∧
    (Vespa.create_alias_windows ⟨some "vespa-bytes", false⟩ "other-bytes").1.target
      = some "vespa-bytes" := by
  exact ⟨c5_idempotent_copy.1 ⟨some "vespa-bytes", false⟩ "other-bytes" "vespa-bytes" rfl,
    c5_idempotent_copy.2 ⟨some "vespa-bytes", false⟩ "other-bytes" "vespa-bytes" rfl⟩

/-! ## HTTP download -/

/-- Response of the single GET request, as seen through the requests client. -/
structure HttpResponse where
  status : Nat
  body : List Nat
deriving DecidableEq

/-- Embeds response.raise_for_status of the requests client: raise HTTPError
for every 4xx client-error and 5xx server-error status. -/
def raise_for_status (r : HttpResponse) : Except String HttpResponse :=
  if 400 ≤ r.status ∧ r.status < 600 then
    Except.error ("HTTP error " ++ toString r.status)
  else Except.ok r

namespace VespaClient

/-- Embeds VespaCLIInstaller.download_file of src/vespa_client/cli/installer.py
lines 48-64: log the start, issue the GET request, raise_for_status, stream
the body into the temporary file and return its path; on any request
exception log the failure and re-raise. The request outcome (network error
or a response) is an input; the result pairs the outcome with the log. -/
def download_file (url : String) (resp : Except String HttpResponse)
    (tmp_path : String) : Except String String × List LogEntry :=
  let startLog := mkInfo ("Starting download from " ++ url)
  match resp with
  | Except.error e =>
    (Except.error e, [startLog, mkErr ("Failed to download file: " ++ e)])
  | Except.ok r =>
    match raise_for_status r with
    | Except.error e =>
      (Except.error e, [startLog, mkErr ("Failed to download file: " ++ e)])
    | Except.ok _ =>
      (Except.ok tmp_path, [startLog, mkInfo ("Download completed and saved to " ++ tmp_path)])

end VespaClient

namespace Vespa

/-- Embeds VespaCLIInstaller.download_file of src/vespa/cli/installer.py lines
43-59: identical control flow to the vespa_client revision, with a fixed
failure message. -/
def download_file (url : String) (resp : Except String HttpResponse)
    (tmp_path : String) : Except String String × List LogEntry :=
  let startLog := mkInfo ("Starting download from " ++ url)
  match resp with
  | Except.error e =>
    (Except.error e, [startLog, mkErr "Failed to download file"])
  | Except.ok r =>
    match raise_for_status r with
    | Except.error e =>
      (Except.error e, [startLog, mkErr "Failed to download file"])
    | Except.ok _ =>
      (Except.ok tmp_path, [startLog, mkInfo ("Download completed and saved to " ++ tmp_path)])

end Vespa

/-! ## Claim C6 -/

/-- C6: in both cited revisions, when the GET request fails with a network
error or the response carries an error status, download_file records a
failure in the log and propagates the error to its caller, never returning
a file path. -/
theorem c6_download_failure_propagates :
    (∀ url e tmp_path,
      VespaClient.download_file url (Except.error e) tmp_path
        = (Except.error e,
            [mkInfo ("Starting download from " ++ url), mkErr ("Failed to download file: " ++ e)])) ∧
    (∀ url r tmp_path, 400 ≤ r.status → r.status < 600 →
      (VespaClient.download_file url (Except.ok r) tmp_path).1
          = Except.error ("HTTP error " ++ toString r.status) ∧
        hasFailureLog (VespaClient.download_file url (Except.ok r) tmp_path).2 = true) ∧
    (∀ url e tmp_path,
      Vespa.download_file url (Except.error e) tmp_path
        = (Except.error e,
            [mkInfo ("Starting download from " ++ url), mkErr "Failed to download file"])) ∧
    (∀ url r tmp_path, 400 ≤ r.status → r.status < 600 →
      (Vespa.download_file url (Except.ok r) tmp_path).1
          = Except.error ("HTTP error " ++ toString r.status) ∧
        hasFailureLog (Vespa.download_file url (Except.ok r) tmp_path).2 = true) := by
  refine ⟨fun url e tmp_path => rfl, ?_, fun url e tmp_path => rfl, ?_⟩
  · intro url r tmp_path h4 h6
    simp [VespaClient.download_file, raise_for_status, h4, h6, hasFailureLog, mkErr, mkInfo]
  · intro url r tmp_path h4 h6
    simp [Vespa.download_file, raise_for_status, h4, h6, hasFailureLog, mkErr, mkInfo]

/-- C6 witness: both error-status conjuncts applied to a concrete 404 response. -/
theorem c6_witness :
    (VespaClient.download_file "https://example.com/a" (Except.ok ⟨404, []⟩) "/tmp/f").1
        = Except.error ("HTTP error " ++ toString (404 : Nat)) ∧
    hasFailureLog (VespaClient.download_file "https://example.com/a"
        (Except.ok ⟨404, []⟩) "/tmp/f").2 = true ∧
    (Vespa.download_file "https://example.com/a" (Except.ok ⟨404, []⟩) "/tmp/f").1
        = Except.error ("HTTP error " ++ toString (404 : Nat)) := by
  refine ⟨?_, ?_, ?_⟩
  · exact (c6_download_failure_propagates.2.1 "https://example.com/a" ⟨404, []⟩ "/tmp/f"
      (by norm_num) (by norm_num)).1
  · exact (c6_download_failure_propagates.2.1 "https://example.com/a" ⟨404, []⟩ "/tmp/f"
      (by norm_num) (by norm_num)).2
  · exact (c6_download_failure_propagates.2.2.2 "https://example.com/a" ⟨404, []⟩ "/tmp/f"
      (by norm_num) (by norm_num)).1

/-! ## PATH and shell-profile updates -/

namespace Vespa

/-- Embeds VespaCLIInstaller.update_system_path_windows of
src/vespa/cli/installer.py lines 118-125: run setx with check enabled inside
a try block; a SubprocessError is caught and logged, never re-raised. The
setx outcome is an input; the Except layer of the result models exception
propagation to the caller and is always ok. -/
def update_system_path_windows (setxResult : Except String Unit) :
    Except String (List LogEntry) :=
  match setxResult with
  | Except.ok _ => Except.ok [mkInfo "Successfully added Vespa CLI to PATH."]
  | Except.error _ => Except.ok [mkErr "Failed to update system PATH"]

end Vespa

namespace VespaClient

/-- Embeds VespaCLIInstaller.create_alias_unix of
src/vespa_client/cli/installer.py lines 112-128: when no shell profile is
found log an error and return; otherwise append the alias line inside a try
block whose except clause catches every exception and logs an error. The
detected profile and the outcome of the append are inputs; the Except layer
models exception propagation and is always ok. -/
def create_alias_unix (shell_profile : Option String)
    (appendResult : Except String Unit) : Except String (List LogEntry) :=
  match shell_profile with
  | none => Except.ok [mkErr "Shell profile not found. Manual alias creation required."]
  | some p =>
    match appendResult with
    | Except.ok _ =>
      Except.ok [mkInfo ("Added alias for vespa in " ++ p),
        mkInfo ("Please source your shell profile (" ++ p ++
          ") or open a new terminal session for the alias to take effect.")]
    | Except.error e => Except.ok [mkErr ("Failed to add alias for vespa. " ++ e)]

/-- Embeds VespaCLIInstaller.update_system_path_windows of
src/vespa_client/cli/installer.py lines 130-134: run setx with shell enabled
and without check, so a nonzero exit status of setx neither raises nor is
inspected, and the success message is logged unconditionally. The setx exit
status is an input that the body never consults. -/
def update_system_path_windows (_setxExit : Nat) : Except String (List LogEntry) :=
  Except.ok [mkInfo "Successfully added Vespa CLI to system PATH."]

end VespaClient

/-! ## Claim C7 -/

/-- C7 counterexample: the claim says a PATH-update failure is logged and
swallowed, but in the src/vespa_client/cli/installer.py revision cited by
the claim a setx failure with exit status 1 leaves no failure entry in the
log at all: the function logs success unconditionally. -/
theorem c7_counterexample :
    VespaClient.update_system_path_windows 1
      = Except.ok [mkInfo "Successfully added Vespa CLI to system PATH."] ∧
    hasFailureLog (logsOrEmpty (VespaClient.update_system_path_windows 1)) = false := by
  exact ⟨rfl, by decide⟩

/-- C7 amended: no PATH-update or shell-profile failure ever propagates an
exception, so the installation run still completes; the vespa revision of
update_system_path_windows and the vespa_client create_alias_unix log the
failure, while the vespa_client update_system_path_windows ignores the setx
exit status entirely and logs success unconditionally, so its failures are
swallowed without being logged. -/
theorem c7_amended :
    (∀ r, ∃ logs, Vespa.update_system_path_windows r = Except.ok logs) ∧
    (∀ e, hasFailureLog (logsOrEmpty (Vespa.update_system_path_windows (Except.error e)))
      = true) ∧
    (∀ p a, ∃ logs, VespaClient.create_alias_unix p a = Except.ok logs) ∧
    (∀ a, hasFailureLog (logsOrEmpty (VespaClient.create_alias_unix none a)) = true) ∧
    (∀ p e, hasFailureLog
      (logsOrEmpty (VespaClient.create_alias_unix (some p) (Except.error e))) = true) ∧
    (∀ n, VespaClient.update_system_path_windows n
      = Except.ok [mkInfo "Successfully added Vespa CLI to system PATH."]) ∧
    (∀ n, hasFailureLog (logsOrEmpty (VespaClient.update_system_path_windows n)) = false) := by
  refine ⟨?_, ?_, ?_, ?_, ?_, fun n => rfl, fun n => rfl⟩
  · intro r
    cases r <;> exact ⟨_, rfl⟩
  · intro e
    rfl
  · intro p a
    cases p with
    | none => exact ⟨_, rfl⟩
    | some q => cases a <;> exact ⟨_, rfl⟩
  · intro a
    cases a <;> rfl
  · intro p e
    simp [VespaClient.create_alias_unix, logsOrEmpty, hasFailureLog, mkErr]

/-! ## CLI passthrough -/

namespace Vespacli

/-- Embeds run_vespa_cli of src/vespacli/__init__.py lines 39-44: look the
installed binary up (get_binary_path raises when the executable is absent),
run it as a subprocess with every command-line argument after the program
name appended unchanged, ignore the completed process and return None. The
result carries the argv the child is started with and the exit status the
function propagates, which is always none whatever the child exit status. -/
def run_vespa_cli (binaryLookup : Except String String) (argvTail : List String)
    (_childExit : Nat) : Except String (List String × Option Nat) :=
  match binaryLookup with
  | Except.error e => Except.error e
  | Except.ok binary_path => Except.ok (binary_path :: argvTail, none)

end Vespacli

/-! ## Claim C8 -/

/-- C8: run_vespa_cli starts the installed binary with all command-line
arguments passed through unchanged, and for every exit status of the child
it propagates no exit status of its own: the result is independent of the
child exit status and its propagated-status component is always none. -/
theorem c8_passthrough_and_exit :
    (∀ binary_path argvTail childExit,
      Vespacli.run_vespa_cli (Except.ok binary_path) argvTail childExit
        = Except.ok (binary_path :: argvTail, none)) ∧
    (∀ lookup argvTail e1 e2,
      Vespacli.run_vespa_cli lookup argvTail e1 = Vespacli.run_vespa_cli lookup argvTail e2) := by
  constructor
  · intro binary_path argvTail _childExit
    rfl
  · intro lookup argvTail e1 e2
    cases lookup <;> rfl

/-! ## Batch downloader paths -/

namespace Downloader

/-- Embeds VespaBinaryDownloader.download_file of
src/utils/download_binaries.py lines 31-42 as far as the returned path is
concerned: the file is saved under INSTALLATION_DIR joined with the last
slash-separated segment of the URL, and that full path is returned. The
installation directory is a parameter because its concrete value comes from
the location of the file on disk at run time. -/
def download_file_path (installDir url : String) : String :=
  installDir ++ "/" ++ url_file_name url

/-- Embeds the value VespaBinaryDownloader.download_and_extract_cli of
src/utils/download_binaries.py lines 58-64 returns: the path download_file
saved the archive to, built from the shared download URL. -/
def download_and_extract_cli_path (installDir version os_name arch : String) : String :=
  download_file_path installDir (download_url version os_name arch)

end Downloader

/-! ## Claim C9 -/

/-- Archive path produced by the batch downloader run for version 8.299.14 on
linux amd64 with the installation directory at its default repository-root
location. -/
def c9ArchivePath : String :=
  Downloader.download_and_extract_cli_path "/repo/vespacli/go-binaries" "8.299.14" "linux" "amd64"

/-- Manifest line of the published checksum file for that archive: digest, two
spaces, bare file name. -/
def c9ManifestLine : String := shaA ++ "  vespa-cli_8.299.14_linux_amd64.tar.gz"

/-- C9: a filename occurring in no manifest line makes verify_checksum return
normally without consulting any digest, so verification passes vacuously;
the run driver passes the full archive path, which is not a substring of
the manifest line naming the bare file, and extract_file already removed
the archive from the filesystem before run reaches verification, yet
verification still passes even though the file can no longer be hashed. -/
theorem c9_vacuous_verification :
    (∀ (digestOf : String → Option String) (filename : String) (content : List String),
      (∀ line ∈ content, pyIn filename line = false) →
      verify_checksum digestOf filename content = Except.ok ()) ∧
    c9ArchivePath = "/repo/vespacli/go-binaries/vespa-cli_8.299.14_linux_amd64.tar.gz" ∧
    pyIn c9ArchivePath c9ManifestLine = false ∧
    pyIn "vespa-cli_8.299.14_linux_amd64.tar.gz" c9ManifestLine = true ∧
    verify_checksum (fun _ => none) c9ArchivePath [c9ManifestLine] = Except.ok () ∧
    (Downloader.extract_file [c9ArchivePath] c9ArchivePath true).2 = [] := by
  refine ⟨?_, rfl, by decide, by decide, rfl, rfl⟩
  intro digestOf filename content
  induction content with
  | nil =>
    intro h
    rfl
  | cons line rest ih =>
    intro h
    have h0 := h line (List.mem_cons_self line rest)
    simp only [verify_checksum, h0, Bool.false_eq_true, if_false]
    exact ih (fun l hl => h l (List.mem_cons_of_mem line hl))

/-- C9 witness: the vacuous-pass conjunct applied to the deleted archive path
and the concrete manifest, with the no-matching-line hypothesis discharged
by evaluation. -/
theorem c9_witness :
    verify_checksum (fun _ => none) c9ArchivePath [c9ManifestLine] = Except.ok () := by
  exact c9_vacuous_verification.1 (fun _ => none) c9ArchivePath [c9ManifestLine]
    (by
      intro l hl
      have hleq := List.mem_singleton.mp hl
      subst hleq
      decide)

/-! ## Version check exit code -/

namespace CheckLatest

/-- Embeds the found_newer flag of src/utils/check_latest_version.py lines
5-14: the latest remote version string is compared with the bundled
vespa_version for inequality. -/
def found_newer (new_version vespa_version : String) : Bool :=
  new_version != vespa_version

/-- Embeds the final sys.exit call of src/utils/check_latest_version.py: exit
status 0 when a different version was found, 1 otherwise. -/
def exit_code (new_version vespa_version : String) : Nat :=
  if found_newer new_version vespa_version then 0 else 1

end CheckLatest

/-! ## Claim C10 -/

/-- C10: the version-check script exits with status 0 exactly when the latest
remote version string differs from the bundled vespa_version, and with
status 1 exactly when the two strings are equal, so the success exit code
signals that a newer version was found. -/
theorem c10_exit_code :
    ∀ new_version vespa_version,
      (CheckLatest.exit_code new_version vespa_version = 0 ↔ new_version ≠ vespa_version) ∧
      (CheckLatest.exit_code new_version vespa_version = 1 ↔ new_version = vespa_version) := by
  intro new_version vespa_version
  by_cases h : new_version = vespa_version <;>
    simp [CheckLatest.exit_code, CheckLatest.found_newer, h]
